import Mathlib

/-!
Verification of the Language Mirror conversational tutoring backend
(src/main.py) against its natural-language specification.

The development is a shallow embedding of the source: the static persona
catalog, the language-mismatch detector, the tutor-feedback generator with
its model-fallback loop, the translation and synthesis adapters, the
streaming pipeline orchestrator, the history parsing of the /converse
endpoint, and the sliding-window rate limiter.

External services (speech recognition, language detection, generative
text, translation, voice synthesis) and the standard-library JSON parser
are modelled as explicit oracle parameters: each oracle value stands for
the observable outcome of one external call, and the embedded functions
reproduce the control flow of the source around those outcomes.  Machine
floats returned by time.time() are modelled as rationals; byte strings by
their length where only the length is inspected.
-/

namespace LanguageMirror

/-- Boolean prefix test on character lists. -/
def charsBeginsWith : List Char → List Char → Bool
  | [], _ => true
  | _ :: _, [] => false
  | p :: ps, c :: cs => p == c && charsBeginsWith ps cs

/-- Boolean substring test on character lists. -/
def charsContains : List Char → List Char → Bool
  | [], pat => pat.isEmpty
  | c :: cs, pat => charsBeginsWith pat (c :: cs) || charsContains cs pat

/-- Python substring test `pat in s`. -/
def strContains (s pat : String) : Bool := charsContains s.data pat.data

/-- Characters after the first occurrence of sep (fuel-driven structural
recursion; call with fuel greater than the list length). -/
def charsAfterFirst : Nat → List Char → List Char → Option (List Char)
  | 0, _, _ => none
  | fuel + 1, s, sep =>
    if charsBeginsWith sep s then some (s.drop sep.length)
    else
      match s with
      | [] => none
      | _ :: rest => charsAfterFirst fuel rest sep

/-- Characters up to the first occurrence of sep. -/
def charsUpToFirst : Nat → List Char → List Char → List Char
  | 0, s, _ => s
  | fuel + 1, s, sep =>
    if charsBeginsWith sep s then []
    else
      match s with
      | [] => []
      | c :: rest => c :: charsUpToFirst fuel rest sep

/-- Python str.lower(), restricted to the ASCII range actually exercised
by the language codes this program lowercases. -/
def pyLower (s : String) : String := String.mk (s.data.map Char.toLower)

/-- Python str.upper(), ASCII range. -/
def pyUpper (s : String) : String := String.mk (s.data.map Char.toUpper)

/-- Whitespace test used by the strip translation. -/
def isSpaceChar (c : Char) : Bool :=
  c == ' ' || c == '\t' || c == '\n' || c == '\r' || c == '\x0b' || c == '\x0c'

/-- Python str.strip(): drop leading and trailing whitespace. -/
def pyStrip (s : String) : String :=
  String.mk (((s.data.dropWhile isSpaceChar).reverse.dropWhile isSpaceChar).reverse)

/-- Python `int()` truncation toward zero, on rationals. -/
def py_int (q : ℚ) : ℤ := if q < 0 then Int.ceil q else Int.floor q

/-- A dialect entry of the SUPPORTED_LANGUAGES catalog. -/
structure DialectConfig where
  voice_id : String
  name : String
  region : String
  personality : String
  greeting : String
  speech_quirks : String
deriving Repr, DecidableEq

/-- A language entry of the SUPPORTED_LANGUAGES catalog. -/
structure LangConfig where
  code : String
  name : String
  flag : String
  translate_code : String
  dialects : List (String × DialectConfig)
deriving Repr, DecidableEq

/-- Placeholder dialect used only to totalize list indexing; every language
in the catalog has a nonempty dialect list, so it is never reached from
catalog data. -/
def placeholder_dialect : DialectConfig :=
  { voice_id := "", name := "", region := "", personality := "", greeting := "", speech_quirks := "" }

/-- Python `list(lang_config["dialects"].values())[0]`: the first declared
dialect of a language. -/
def first_dialect (lc : LangConfig) : DialectConfig :=
  ((lc.dialects.headD ("", placeholder_dialect))).2
/-- Language configuration for italian from SUPPORTED_LANGUAGES in the source. -/
def italian_cfg : LangConfig :=
  { code := "it-IT",
    name := "Italian",
    flag := "🇮🇹",
    translate_code := "it",
    dialects := [
      ("tuscan",
        { voice_id := "pNInz6obpgDQGcFmaJgB",
          name := "Sofia",
          region := "Florence, Tuscany",
          personality := "Sofia is a 32-year-old art historian - cultured but direct. She appreciates effort but won\x27t sugarcoat mistakes. She\x27ll tell you \x27That\x27s not quite right\x27 before explaining why. She has high standards because she knows you can meet them.",
          greeting := "Ciao! Sono Sofia. Pronto a fare un po\x27 di pratica seria?",
          speech_quirks := "Uses \x27Dunque...\x27, \x27Allora...\x27, references Florentine culture, speaks precisely" }),
      ("roman",
        { voice_id := "ErXwobaYiN019PkySvjV",
          name := "Marco",
          region := "Rome",
          personality := "Marco is a 28-year-old who works at his family\x27s trattoria. He\x27s brutally honest in a friendly way - will laugh at your mistakes but help you fix them. Uses Roman slang and doesn\x27t take things too seriously. If you mess up, expect \x27Dai, che hai detto?\x27 (Come on, what did you say?)",
          greeting := "Ao! Ciao! So\x27 Marco. Vediamo che sai fare, dai!",
          speech_quirks := "Uses \x27Ao!\x27, \x27Daje!\x27, \x27Che te devo di\x27?\x27, drops endings, very direct" }),
      ("neapolitan",
        { voice_id := "VR6AewLTigWG4xSOukaG",
          name := "Giuseppe",
          region := "Naples",
          personality := "Giuseppe is a 45-year-old musician - warm but honest. He\x27ll encourage you but also say \x27Mamma mia, no no no\x27 when you mess up badly. He\x27s expressive and dramatic about both praise AND criticism. Expects you to try hard.",
          greeting := "Uè! Benvenuto! Famme sentì che sai fa\x27!",
          speech_quirks := "Very expressive, uses \x27Uè!\x27, \x27Mamma mia!\x27, dramatic reactions, mixes Neapolitan words" })
    ] }

/-- Language configuration for spanish from SUPPORTED_LANGUAGES in the source. -/
def spanish_cfg : LangConfig :=
  { code := "es-ES",
    name := "Spanish",
    flag := "🇪🇸",
    translate_code := "es",
    dialects := [
      ("castilian",
        { voice_id := "pNInz6obpgDQGcFmaJgB",
          name := "Carmen",
          region := "Madrid, Spain",
          personality := "Carmen is a 35-year-old journalist - sharp, witty, and doesn\x27t waste words. She\x27ll point out mistakes immediately but explains them well. Has little patience for lazy attempts but respects genuine effort. Will say \x27Bueno, eso no está bien\x27 without hesitation.",
          greeting := "Hola. Soy Carmen. Vamos a ver qué tal lo haces.",
          speech_quirks := "Uses \x27Vale\x27, \x27Bueno\x27, \x27A ver...\x27, Castilian lisp, matter-of-fact tone" }),
      ("mexican",
        { voice_id := "ErXwobaYiN019PkySvjV",
          name := "Carlos",
          region := "Mexico City",
          personality := "Carlos is a 30-year-old designer - friendly but straightforward. He\x27ll say \x27¿Qué onda con eso?\x27 when confused by your Spanish. Encouraging but honest - won\x27t pretend something was good if it wasn\x27t. Uses humor to soften criticism.",
          greeting := "¡Qué onda! Soy Carlos. A ver, échale ganas.",
          speech_quirks := "Uses \x27¿Qué onda?\x27, \x27Órale\x27, \x27No manches\x27, casual but clear" }),
      ("argentine",
        { voice_id := "VR6AewLTigWG4xSOukaG",
          name := "Martín",
          region := "Buenos Aires",
          personality := "Martín is a 38-year-old tango instructor - passionate and opinionated. He\x27ll tell you exactly what he thinks. Uses \x27Che, no, así no\x27 when you\x27re wrong. Philosophical about mistakes but expects improvement. Very expressive feedback.",
          greeting := "Che, ¿qué tal? Soy Martín. Dale, mostrame qué tenés.",
          speech_quirks := "Uses \x27Che\x27, \x27Vos\x27, \x27Dale\x27, dramatic pauses, Italian-influenced intonation" })
    ] }

/-- Language configuration for french from SUPPORTED_LANGUAGES in the source. -/
def french_cfg : LangConfig :=
  { code := "fr-FR",
    name := "French",
    flag := "🇫🇷",
    translate_code := "fr",
    dialects := [
      ("parisian",
        { voice_id := "pNInz6obpgDQGcFmaJgB",
          name := "Amélie",
          region := "Paris",
          personality := "Amélie is a 29-year-old fashion editor - elegant but exacting. She notices every mistake and will raise an eyebrow before correcting you. Says \x27Hmm, non, pas exactement...\x27 often. Appreciates when you try but has standards. Slightly intimidating but fair.",
          greeting := "Bonjour. Je suis Amélie. Voyons voir ce que vous savez faire.",
          speech_quirks := "Uses \x27Enfin...\x27, \x27Bon...\x27, \x27Euh...\x27, slight sighs, precise pronunciation" }),
      ("quebec",
        { voice_id := "ErXwobaYiN019PkySvjV",
          name := "Jean-Pierre",
          region := "Montreal, Quebec",
          personality := "Jean-Pierre is a 42-year-old hockey coach - gruff but caring. Doesn\x27t sugarcoat anything. Will say \x27Ben non, c\x27est pas ça!\x27 and then patiently explain. Tough love approach. Celebrates real wins, not participation trophies.",
          greeting := "Salut! Moi c\x27est Jean-Pierre. Envoye, montre-moi c\x27que t\x27as!",
          speech_quirks := "Uses \x27Ben\x27, \x27Pantoute\x27, \x27Icitte\x27, \x27Tabarouette\x27, casual but direct" }),
      ("southern",
        { voice_id := "VR6AewLTigWG4xSOukaG",
          name := "Pierre",
          region := "Marseille, Provence",
          personality := "Pierre is a 50-year-old chef - warm but no-nonsense. Like in his kitchen, mistakes are learning opportunities but repeated mistakes get called out. Says \x27Oh peuchère, non!\x27 when you mess up. Genuine praise when earned.",
          greeting := "Aïe, bonjour! Moi c\x27est Pierre. Allez, on voit ce que tu sais!",
          speech_quirks := "Uses \x27Peuchère\x27, \x27Fan\x27, elongated vowels, Mediterranean warmth with honesty" })
    ] }

/-- Language configuration for german from SUPPORTED_LANGUAGES in the source. -/
def german_cfg : LangConfig :=
  { code := "de-DE",
    name := "German",
    flag := "🇩🇪",
    translate_code := "de",
    dialects := [
      ("hochdeutsch",
        { voice_id := "pNInz6obpgDQGcFmaJgB",
          name := "Anna",
          region := "Berlin",
          personality := "Anna is a 34-year-old engineer - precise, logical, and direct. German directness means she tells you exactly what\x27s wrong without softening it. \x27Das ist falsch\x27 (That\x27s wrong) followed by clear explanation. Efficient feedback, no fluff.",
          greeting := "Hallo. Ich bin Anna. Lass uns sehen, wie gut dein Deutsch ist.",
          speech_quirks := "Uses \x27Also...\x27, \x27Genau\x27, \x27Naja...\x27, very structured explanations" }),
      ("bavarian",
        { voice_id := "ErXwobaYiN019PkySvjV",
          name := "Hans",
          region := "Munich, Bavaria",
          personality := "Hans is a 48-year-old Biergarten owner - jovial but tells it like it is. Will laugh at bad attempts and say \x27Na, des war nix!\x27 (Nope, that was nothing!) but helps you get it right. Honest in a friendly, teasing way.",
          greeting := "Servus! I bin da Hans. Zeig ma, was\x27d drauf hast!",
          speech_quirks := "Uses \x27Servus\x27, \x27Ja mei\x27, \x27Des passt scho\x27, Bavarian directness with humor" }),
      ("austrian",
        { voice_id := "VR6AewLTigWG4xSOukaG",
          name := "Wolfgang",
          region := "Vienna, Austria",
          personality := "Wolfgang is a 40-year-old classical musician - cultured with dry wit. Will give you a look and say \x27Naja, das war... interessant\x27 (Well, that was... interesting) when you mess up. Subtle criticism, expects you to catch it.",
          greeting := "Grüß Gott. Ich bin Wolfgang. Mal schauen, was Sie können.",
          speech_quirks := "Uses \x27Leiwand\x27, \x27Geh bitte\x27, subtle sarcasm, elegant but honest" })
    ] }

/-- Language configuration for japanese from SUPPORTED_LANGUAGES in the source. -/
def japanese_cfg : LangConfig :=
  { code := "ja-JP",
    name := "Japanese",
    flag := "🇯🇵",
    translate_code := "ja",
    dialects := [
      ("tokyo",
        { voice_id := "pNInz6obpgDQGcFmaJgB",
          name := "Yuki",
          region := "Tokyo",
          personality := "Yuki is a 26-year-old tech worker - polite but precise. Uses Japanese indirectness but you\x27ll know when you\x27re wrong. \x27Chotto chigaimasu ne...\x27 (That\x27s a bit different...) means you messed up. Gentle but expects improvement.",
          greeting := "こんにちは。ゆきです。さあ、やってみましょう。",
          speech_quirks := "Uses \x27ちょっと...\x27, \x27そうですね...\x27, polite but clear when correcting" }),
      ("osaka",
        { voice_id := "ErXwobaYiN019PkySvjV",
          name := "Kenji",
          region := "Osaka",
          personality := "Kenji is a 35-year-old comedian - direct Osaka style. Will say \x27Chau chau!\x27 (Wrong wrong!) and laugh. Osaka people are famously blunt. Makes learning fun but doesn\x27t pretend bad Japanese is good. Teases mistakes playfully.",
          greeting := "おおきに！ケンジやで。ほな、やってみ！",
          speech_quirks := "Uses \x27ちゃうちゃう\x27, \x27なんでやねん\x27, \x27あかん\x27, blunt Osaka humor" }),
      ("kyoto",
        { voice_id := "VR6AewLTigWG4xSOukaG",
          name := "Haruka",
          region := "Kyoto",
          personality := "Haruka is a 45-year-old tea ceremony instructor - graceful but with high standards. Kyoto politeness can be cutting - \x27Ma, yoroshii n desu kedo...\x27 (Well, it\x27s fine but...) means it\x27s not fine. Subtle criticism, expects refinement.",
          greeting := "おこしやす。はるかどす。お手並み拝見させてもらいますえ。",
          speech_quirks := "Uses \x27どす\x27, \x27え\x27, Kyoto indirectness that somehow still stings" })
    ] }

/-- The full language catalog, in source declaration order. -/
def SUPPORTED_LANGUAGES : List (String × LangConfig) :=
  [("italian", italian_cfg), ("spanish", spanish_cfg), ("french", french_cfg), ("german", german_cfg), ("japanese", japanese_cfg)]

/-- Static mapping from detected language code to a readable name, from detect_language_mismatch. -/
def language_names : List (String × String) :=
  [("en", "English"),
   ("it", "Italian"),
   ("es", "Spanish"),
   ("fr", "French"),
   ("de", "German"),
   ("ja", "Japanese"),
   ("zh", "Chinese"),
   ("zh-cn", "Chinese"),
   ("zh-tw", "Chinese"),
   ("ko", "Korean"),
   ("pt", "Portuguese"),
   ("ru", "Russian"),
   ("ar", "Arabic"),
   ("hi", "Hindi"),
   ("nl", "Dutch"),
   ("pl", "Polish"),
   ("tr", "Turkish"),
   ("vi", "Vietnamese"),
   ("th", "Thai"),
   ("sv", "Swedish"),
   ("da", "Danish"),
   ("no", "Norwegian"),
   ("fi", "Finnish"),
   ("el", "Greek"),
   ("he", "Hebrew"),
   ("id", "Indonesian"),
   ("ms", "Malay"),
   ("cs", "Czech"),
   ("ro", "Romanian"),
   ("hu", "Hungarian"),
   ("uk", "Ukrainian"),
   ("bg", "Bulgarian"),
   ("hr", "Croatian"),
   ("sk", "Slovak"),
   ("sl", "Slovenian"),
   ("lt", "Lithuanian"),
   ("lv", "Latvian"),
   ("et", "Estonian"),
   ("und", "Unknown"),
   ("", "Unknown")]

/-- Persona-conditioned system prompt, translated from get_tutor_prompt in the source. -/
def get_tutor_prompt (language dialect : String) : String :=
  let lang_config := (List.lookup language SUPPORTED_LANGUAGES).getD italian_cfg
  let dialect_config := (List.lookup dialect lang_config.dialects).getD (first_dialect lang_config)
  "You are " ++
    dialect_config.name ++
    ", a language tutor from " ++
    dialect_config.region ++
    ".\n\nPERSONALITY:\n" ++
    dialect_config.personality ++
    "\n\nCRITICAL RULES FOR BEING A REAL TUTOR (NOT A CHATBOT):\n\n1. LANGUAGE CHECK FIRST:\n   - If the learner speaks in the WRONG language (not " ++
    lang_config.name ++
    "), call it out immediately\n   - Example: If they speak English when learning Italian, say: \"Hey! You spoke in English. Try again in Italian - even if it\x27s broken, that\x27s how you learn!\"\n   - Be playful but firm about this\n\n2. HONEST FEEDBACK (NOT CONSTANT PRAISE):\n   - DON\x27T say \"Great job!\" or \"Perfect!\" unless it actually IS perfect\n   - If they make mistakes, be direct: \"Not quite right. You said X but it should be Y because...\"\n   - If pronunciation would be wrong (based on spelling), mention it\n   - If grammar is broken, explain WHY it\x27s wrong, don\x27t just correct it\n   - Rate their attempt honestly: \"That was rough, but I understood you\" or \"Pretty good, just one small fix\"\n\n3. NATURAL REACTIONS (BE HUMAN):\n   - React to WHAT they said, not just HOW they said it\n   - If they say something funny, laugh\n   - If they say something sad, acknowledge it\n   - If they\x27re clearly struggling, be encouraging but realistic\n   - Use filler words naturally: \"Hmm...\", \"Well...\", \"Look...\", \"Okay so...\"\n\n4. TEACHING STYLE:\n   - Give ONE main correction per response (don\x27t overwhelm)\n   - Explain the WHY behind corrections\n   - If they keep making the same mistake, point it out: \"You keep doing X, remember it\x27s Y\"\n   - Challenge them if they\x27re doing well: \"Good! Now try saying it more naturally...\"\n\n5. CONVERSATION FLOW:\n   - Ask follow-up questions about what THEY said\n   - Don\x27t just correct and move on - engage with their content\n   - Keep responses concise (2-3 sentences max)\n\nSPEECH STYLE:\n" ++
    dialect_config.speech_quirks ++
    "\n\nRESPONSE FORMAT (JSON only):\n\x7b\n    \"reaction\": \"Your genuine first reaction - can be surprised, amused, confused, impressed, or critical\",\n    \"correction\": \"Be honest: \x27Perfect!\x27 only if truly perfect. Otherwise explain what\x27s wrong and why. If wrong language, call it out here.\",\n    \"response\": \"Your " ++
    lang_config.name ++
    " response - continue the conversation naturally\",\n    \"cultural_note\": \"Only if relevant, otherwise empty string\",\n    \"encouragement\": \"Honest assessment: \x27That was tough, keep practicing\x27 or \x27You\x27re getting it!\x27 - not fake praise\"\n\x7d"

/-- Full generation prompt assembled in analyze_with_gemini from the system prompt, recent history and the transcript. -/
def build_prompt (system_prompt history_text transcript lang_name : String) : String :=
  system_prompt ++
    "\n" ++
    history_text ++
    "\nTARGET LANGUAGE: " ++
    lang_name ++
    "\nLEARNER SAID: \"" ++
    transcript ++
    "\"\n\nGive honest feedback on their " ++
    lang_name ++
    ". Be direct and helpful.\n\nReply ONLY with valid JSON:\n\x7b\"reaction\": \"genuine reaction\", \"correction\": \"specific feedback or \x27Good!\x27\", \"response\": \"reply in " ++
    lang_name ++
    "\", \"cultural_note\": \"\", \"encouragement\": \"honest assessment\"\x7d"
/-- Language resolution used across the source:
`SUPPORTED_LANGUAGES.get(language, SUPPORTED_LANGUAGES["italian"])`. -/
def resolve_lang (language : String) : LangConfig :=
  (List.lookup language SUPPORTED_LANGUAGES).getD italian_cfg

/-- Dialect-key resolution from the /converse endpoint:
`if not dialect or dialect not in available_dialects: dialect = available_dialects[0]`. -/
def resolve_dialect_key (language dialect : String) : String :=
  let available_dialects := (resolve_lang language).dialects.map Prod.fst
  if dialect = "" ∨ available_dialects.contains dialect = false then
    available_dialects.headD ""
  else dialect

/-- Outcome of one call to the external language-identification service
(translate_client.detect_language): either the call raised, or it produced
a response whose language field is the given string (a response of an
unexpected shape is represented by the empty string, exactly as the source
collapses it). -/
inductive DetectOutcome where
  | failed
  | found (lang : String)
deriving Repr, DecidableEq

/-- Code-to-base-subtag normalization: `detected_lang.split("-")[0]`. -/
def base_code (s : String) : String := String.mk (s.data.takeWhile (fun c => c != '-'))

/-- Readable name of a detected code:
`language_names.get(detected_lang, detected_lang.upper() if detected_lang else "Unknown")`. -/
def detected_display_name (detected_lang : String) : String :=
  (List.lookup detected_lang language_names).getD
    (if detected_lang = "" then "Unknown" else pyUpper detected_lang)

/-- The mismatch message template of detect_language_mismatch. -/
def wrong_language_message (detected_name target_name : String) : String :=
  "🛑 Wrong language! You spoke in " ++ detected_name ++ ", but we\x27re practicing " ++
    target_name ++ ". Try again in " ++ target_name ++
    " - even if it\x27s broken or just a few words!"

/-- Translation of detect_language_mismatch.  Returns
(is_mismatch, message, detected_language). -/
def detect_language_mismatch (det : DetectOutcome) (transcript target_language : String) :
    Bool × String × String :=
  if transcript = "" ∨ (pyStrip transcript).length < 2 then (false, "", "unknown")
  else
    match det with
    | .failed => (false, "", "error")
    | .found lang0 =>
      let detected_lang := pyLower lang0
      let lang_config := resolve_lang target_language
      let target_code := pyLower lang_config.translate_code
      let detected_name := detected_display_name detected_lang
      let target_name := lang_config.name
      if detected_lang = "" ∨ detected_lang = "und" then (false, "", "unknown")
      else if base_code detected_lang ≠ base_code target_code then
        (true, wrong_language_message detected_name target_name, detected_lang)
      else (false, "", detected_lang)

/-- One caller-supplied conversation turn (`{user, tutor}` object; a missing
key reads as the empty string). -/
structure Turn where
  user : String
  tutor : String
deriving Repr, DecidableEq

/-- Conversation-context text assembled in analyze_with_gemini from the
last two history turns. -/
def history_to_text (history : List Turn) : String :=
  if history.isEmpty then ""
  else
    "\n\nRecent conversation:\n" ++
      String.join ((history.drop (history.length - 2)).map
        (fun h => "Learner: " ++ h.user ++ "\nTutor: " ++ h.tutor ++ "\n"))

/-- The ordered, fixed priority list of candidate model identifiers. -/
def models_to_try : List String :=
  ["gemini-2.0-flash-lite", "gemini-2.0-flash-lite-001", "gemini-flash-lite-latest",
   "gemini-2.0-flash", "gemini-2.0-flash-001", "gemini-flash-latest", "gemini-2.0-flash-exp"]

/-- Outcome of one generate_content attempt against one model: the call
raised with the given message, or a response object was returned whose
text accessor either raises (Except.error) or yields the body. -/
inductive AttemptOutcome where
  | genFailure (error_str : String)
  | genSuccess (text_result : Except String String)
deriving Repr

/-- The structured feedback produced by the Tutor-Feedback Generator. -/
structure FeedbackResult where
  reaction : String
  correction : String
  response : String
  cultural_note : String
  encouragement : String
deriving Repr, DecidableEq

/-- Oracles consumed by analyze_with_gemini: the language-detection
outcome, the per-model generation outcomes (a function of model name and
prompt), and the stdlib JSON parse of the cleaned body (some assoc-list of
the string fields of the object, none on JSONDecodeError). -/
structure GeminiEnv where
  det : DetectOutcome
  attempts : String → String → AttemptOutcome
  parseJson : String → Option (List (String × String))

/-- The model-fallback loop: try models in order, keep the first response;
every failure (quota, not-found or other) advances to the next model. -/
def first_model_response (attempts : String → String → AttemptOutcome) (prompt : String) :
    List String → Option (Except String String)
  | [] => none
  | m :: rest =>
    match attempts m prompt with
    | .genSuccess t => some t
    | .genFailure _ => first_model_response attempts prompt rest

/-- Python `text.split(fence)[1].split("```")[0]`: the content after the
first occurrence of the opening fence, up to the following fence. -/
def strip_to_fence (text fence : String) : String :=
  match charsAfterFirst (text.data.length + 1) text.data fence.data with
  | none => ""
  | some rest => String.mk (charsUpToFirst (rest.length + 1) rest "```".data)

/-- The quota/resource failure signature test of the outer exception
handler of analyze_with_gemini. -/
def quota_pattern (error_msg : String) : Bool :=
  strContains error_msg "429" || strContains (pyLower error_msg) "quota" ||
    strContains (pyLower error_msg) "resource" || strContains (pyLower error_msg) "exhausted"

/-- The outer `except Exception` handler of analyze_with_gemini: a
quota-pattern message degrades to a canned fallback, anything else is a
hard error. -/
def gemini_exception_result (dialect_info : DialectConfig) (error_msg : String) :
    Option FeedbackResult × Option String :=
  if quota_pattern error_msg then
    (some { reaction := "I heard you!",
            correction := "Let\x27s work on that together.",
            response := dialect_info.greeting,
            cultural_note := "",
            encouragement := "Keep practicing!" }, none)
  else (none, some ("AI analysis failed: " ++ error_msg))

/-- Translation of analyze_with_gemini.  Returns (result, error). -/
def analyze_with_gemini (env : GeminiEnv) (transcript language dialect : String)
    (history : List Turn) : Option FeedbackResult × Option String :=
  let lang_config := resolve_lang language
  let dialect_info := (List.lookup dialect lang_config.dialects).getD (first_dialect lang_config)
  match detect_language_mismatch env.det transcript language with
  | (true, wrong_lang_message, _) =>
      (some { reaction := "Whoa, stop right there! 🛑",
              correction := wrong_lang_message,
              response := dialect_info.greeting,
              cultural_note := "",
              encouragement := "Come on, give " ++ lang_config.name ++ " a try! Even one word counts." },
       none)
  | (false, _, _) =>
      let system_prompt := get_tutor_prompt language dialect
      let history_text := history_to_text history
      let prompt := build_prompt system_prompt history_text transcript lang_config.name
      match first_model_response env.attempts prompt models_to_try with
      | none => gemini_exception_result dialect_info "All models exhausted or unavailable"
      | some (Except.error e) => gemini_exception_result dialect_info e
      | some (Except.ok raw) =>
          let text := pyStrip raw
          let text2 :=
            if strContains text "```json" then strip_to_fence text "```json"
            else if strContains text "```" then strip_to_fence text "```"
            else text
          match env.parseJson (pyStrip text2) with
          | none =>
              (some { reaction := "I heard you!",
                      correction := "Let me help you with that.",
                      response := dialect_info.greeting,
                      cultural_note := "",
                      encouragement := "Keep trying!" }, none)
          | some result =>
              (some { reaction := (List.lookup "reaction" result).getD "",
                      correction := (List.lookup "correction" result).getD "",
                      response := (List.lookup "response" result).getD "",
                      cultural_note := (List.lookup "cultural_note" result).getD "",
                      encouragement := (List.lookup "encouragement" result).getD "" }, none)

/-- Outcome of one call to the external translation service for a given
text and source code (the translated text is taken post HTML-unescape). -/
inductive TranslateOutcome where
  | ok (translated_text : String)
  | err (msg : String)
deriving Repr, DecidableEq

/-- Translation of translate_text.  Returns (text, error). -/
def translate_text (call : String → String → TranslateOutcome) (text source_lang : String) :
    String × Option String :=
  let lang_config := resolve_lang source_lang
  match call text lang_config.translate_code with
  | .ok t => (t, none)
  | .err e => ("", some ("Translation failed: " ++ e))

/-- Outcome of one voice-synthesis call for a given text and voice id: the
base64 audio payload, or the user-facing failure message computed by the
status-code and exception branches of synthesize_speech. -/
inductive SynthOutcome where
  | audio (audio_base64 : String)
  | failed (msg : String)
deriving Repr, DecidableEq

/-- Translation of synthesize_speech.  Returns (audio_base64, error). -/
def synthesize_speech (call : String → String → SynthOutcome) (text language dialect : String) :
    String × Option String :=
  let lang_config := resolve_lang language
  let dialect_config := (List.lookup dialect lang_config.dialects).getD (first_dialect lang_config)
  match call text dialect_config.voice_id with
  | .audio a => (a, none)
  | .failed e => ("", some e)

/-- Aggregate payload of the final complete event. -/
structure CompleteData where
  transcript : String
  reaction : String
  correction : String
  encouragement : String
  cultural_note : String
  response_native : String
  response_english : String
  audio_base64 : String
  tutor_name : String
  tutor_region : String
  language : String
  dialect : String
deriving Repr, DecidableEq

/-- The discriminated union of server-sent events emitted by the pipeline. -/
inductive Event where
  | progress (step message : String) (percent : Nat)
  | transcript (text : String)
  | analysis (reaction correction encouragement cultural_note : String)
  | translation (native english : String)
  | complete (data : CompleteData)
  | error (message : String)
deriving Repr, DecidableEq

/-- An event kind label together with the progress step, for stating event
order. -/
def event_label : Event → String
  | .progress step _ _ => "progress:" ++ step
  | .transcript _ => "transcript"
  | .analysis _ _ _ _ => "analysis"
  | .translation _ _ => "translation"
  | .complete _ => "complete"
  | .error _ => "error"

/-- Terminal events end the stream. -/
def is_terminal : Event → Bool
  | .complete _ => true
  | .error _ => true
  | _ => false

/-- Error-event recognizer. -/
def is_error_event : Event → Bool
  | .error _ => true
  | _ => false

/-- Oracles consumed by one pipeline run: the feedback-generation oracles,
the transcription result pair for this audio (as returned by
transcribe_audio: text plus optional user-facing error), the translation
call and the synthesis call. -/
structure PipelineEnv where
  gem : GeminiEnv
  transcribeRes : String × Option String
  translateCall : String → String → TranslateOutcome
  synthCall : String → String → SynthOutcome

/-- The degradable translation step of the pipeline: on a translation
error the orchestrator substitutes the fixed placeholder string. -/
def pipeline_translation (env : PipelineEnv) (language : String) (g : FeedbackResult) : String :=
  match translate_text env.translateCall g.response language with
  | (t, none) => t
  | (_, some _) => "(Translation unavailable)"

/-- The degradable synthesis step: on a synthesis error the orchestrator
substitutes the empty audio payload. -/
def pipeline_audio (env : PipelineEnv) (language dialect : String) (g : FeedbackResult) : String :=
  match synthesize_speech env.synthCall g.response language dialect with
  | (a, none) => a
  | (_, some _) => ""

/-- Translation of the generate_events generator of the /converse
endpoint: the full ordered stream of events for one request.
audio_len is len(audio_content); lang_config and dialect_config are the
values resolved by the endpoint before the generator starts. -/
def generate_events (env : PipelineEnv) (audio_len : Nat) (language dialect : String)
    (lang_config : LangConfig) (dialect_config : DialectConfig)
    (conversation_history : List Turn) : List Event :=
  let ev_receiving := Event.progress "receiving" ("🎤 " ++ dialect_config.name ++ " is listening...") 10
  if audio_len < 1000 then
    [ev_receiving, Event.error "Audio too short. Please speak for at least 1 second."]
  else
    let ev_transcribing :=
      Event.progress "transcribing" ("📝 Understanding your " ++ lang_config.name ++ "...") 25
    match env.transcribeRes with
    | (_, some e) => [ev_receiving, ev_transcribing, Event.error e]
    | (transcript_text, none) =>
      if transcript_text = "" then
        [ev_receiving, ev_transcribing,
         Event.error "Couldn\x27t hear you clearly. Please try again!"]
      else
        let ev_transcript := Event.transcript transcript_text
        let ev_analyzing :=
          Event.progress "analyzing" ("🤔 " ++ dialect_config.name ++ " is thinking...") 45
        match analyze_with_gemini env.gem transcript_text language dialect conversation_history with
        | (_, some e) =>
            [ev_receiving, ev_transcribing, ev_transcript, ev_analyzing, Event.error e]
        | (none, none) =>
            [ev_receiving, ev_transcribing, ev_transcript, ev_analyzing,
             Event.error "Something went wrong. Please try again!"]
        | (some g, none) =>
            let ev_analysis := Event.analysis g.reaction g.correction g.encouragement g.cultural_note
            let ev_translating := Event.progress "translating" "🌐 Creating subtitles..." 65
            let native_response := g.response
            let translated := pipeline_translation env language g
            let ev_translation := Event.translation native_response translated
            let ev_synthesizing :=
              Event.progress "synthesizing"
                ("🗣️ " ++ dialect_config.name ++ " is preparing to speak...") 85
            let audio_b64 := pipeline_audio env language dialect g
            [ev_receiving, ev_transcribing, ev_transcript, ev_analyzing, ev_analysis,
             ev_translating, ev_translation, ev_synthesizing,
             Event.progress "complete" "✅ Ready!" 100,
             Event.complete
               { transcript := transcript_text,
                 reaction := g.reaction,
                 correction := g.correction,
                 encouragement := g.encouragement,
                 cultural_note := g.cultural_note,
                 response_native := native_response,
                 response_english := translated,
                 audio_base64 := audio_b64,
                 tutor_name := dialect_config.name,
                 tutor_region := dialect_config.region,
                 language := language,
                 dialect := dialect }]

/-- Dialect configuration picked by the /converse endpoint after key
resolution: `lang_config["dialects"][dialect]`. -/
def converse_dialect_config (language dialect : String) : DialectConfig :=
  (List.lookup (resolve_dialect_key language dialect) (resolve_lang language).dialects).getD
    placeholder_dialect

/-- Translation of the /converse endpoint body around the generator:
language/dialect resolution, history parsing (the stdlib json.loads is the
oracle parseHistory, none standing for any exception of the bare except,
in which case the history silently becomes the empty list), then the
event stream. -/
def converse_events (env : PipelineEnv) (parseHistory : String → Option (List Turn))
    (audio_len : Nat) (language dialect history : String) : List Event :=
  let conversation_history := (parseHistory history).getD []
  generate_events env audio_len language (resolve_dialect_key language dialect)
    (resolve_lang language) (converse_dialect_config language dialect) conversation_history

/-- Rate limit configuration constants. -/
def RATE_LIMIT_REQUESTS : Nat := 20

/-- Rate limit window in seconds. -/
def RATE_LIMIT_WINDOW : ℚ := 60

/-- Translation of RateLimiter.is_allowed for one client key (the
defaultdict gives each client an independent list, initially empty).
Returns (allowed, retry_after, new timestamp list for this client). -/
def is_allowed (max_requests : Nat) (window : ℚ) (requests : List ℚ) (now : ℚ) :
    Bool × Option ℤ × List ℚ :=
  let kept := requests.filter (fun t => now - t < window)
  if max_requests ≤ kept.length then
    let oldest := (kept.min?).getD 0
    (false, some (py_int (window - (now - oldest)) + 1), kept)
  else
    (true, none, kept ++ [now])

/-- Run a sequence of admission checks for one client, threading the
stored timestamp list; returns the per-check verdicts and the final list. -/
def runChecks (max_requests : Nat) (window : ℚ) (requests : List ℚ) :
    List ℚ → List (Bool × Option ℤ) × List ℚ
  | [] => ([], requests)
  | t :: ts =>
    match is_allowed max_requests window requests t with
    | (allowed, retry, requests2) =>
      match runChecks max_requests window requests2 ts with
      | (verdicts, final) => ((allowed, retry) :: verdicts, final)

/-- Result of the HTTP rate-limit middleware for one request. -/
inductive MiddlewareResult where
  | forwarded
  | rejected (retry_after : ℤ)
deriving Repr, DecidableEq

/-- Translation of rate_limit_middleware: requests whose exact path is in
the skip list are forwarded without consulting the limiter; all others go
through is_allowed for the client and are rejected with 429 and the
computed retry_after when denied. -/
def rate_limit_middleware (requests : List ℚ) (now : ℚ) (path : String) : MiddlewareResult :=
  if path ∈ ["/health", "/dialects", "/languages"] then .forwarded
  else
    match is_allowed RATE_LIMIT_REQUESTS RATE_LIMIT_WINDOW requests now with
    | (true, _, _) => .forwarded
    | (false, retry, _) => .rejected (retry.getD 0)
/-! Sample oracle environments for concrete evaluations. -/

/-- Sample parsed JSON feedback fields. -/
def sample_fields : List (String × String) :=
  [("reaction", "Bene!"), ("correction", "Good!"), ("response", "Ciao! Come stai?"),
   ("cultural_note", ""), ("encouragement", "Keep going!")]

/-- Sample feedback-generation oracles: detection finds Italian, the first
model answers with a body the JSON oracle parses into sample_fields. -/
def sample_gem : GeminiEnv :=
  { det := .found "it",
    attempts := fun _ _ => .genSuccess (Except.ok "RAW"),
    parseJson := fun _ => some sample_fields }

/-- Sample pipeline oracles for a fully successful run. -/
def sample_env : PipelineEnv :=
  { gem := sample_gem,
    transcribeRes := ("Ciao", none),
    translateCall := fun _ _ => .ok "Hello! How are you?",
    synthCall := fun _ _ => .audio "QUJD" }

/-! Helper lemmas. -/

/-- If no event before the last one is terminal, the stream holds at most
one terminal event. -/
theorem count_terminal_le_one_of_dropLast (l : List Event)
    (h : l.dropLast.all (fun e => ! is_terminal e) = true) :
    (l.filter is_terminal).length ≤ 1 := by
  rcases eq_or_ne l [] with rfl | hne
  · simp
  · have hsplit : l.dropLast ++ [l.getLast hne] = l := List.dropLast_append_getLast hne
    have hnil : l.dropLast.filter is_terminal = [] := by
      refine List.filter_eq_nil_iff.mpr ?_
      intro a ha
      have := (List.all_eq_true.mp h) a ha
      simp at this
      simp [this]
    conv_lhs => rw [← hsplit]
    rw [List.filter_append, hnil]
    simp only [List.nil_append]
    cases hterm : is_terminal (l.getLast hne) <;> simp [hterm]

/-- A string key contained in the key list of an association list has a
successful lookup. -/
theorem lookup_isSome_of_contains {β : Type} (a : String) (l : List (String × β))
    (h : (l.map Prod.fst).contains a = true) : (List.lookup a l).isSome = true := by
  induction l with
  | nil => simp at h
  | cons p rest ih =>
    rcases p with ⟨k, v⟩
    simp only [List.map_cons, List.contains_cons] at h
    cases hak : a == k
    · rw [hak] at h
      simp only [Bool.false_or] at h
      simp [List.lookup, hak, ih h]
    · simp [List.lookup, hak]

/-- The language lookup with italian default always lands in the catalog. -/
theorem resolve_lang_cases (language : String) :
    resolve_lang language = italian_cfg ∨ resolve_lang language = spanish_cfg ∨
      resolve_lang language = french_cfg ∨ resolve_lang language = german_cfg ∨
      resolve_lang language = japanese_cfg := by
  unfold resolve_lang SUPPORTED_LANGUAGES
  simp only [List.lookup]
  repeat' split
  all_goals simp_all

/-! Claims. -/

/-- Claim C1: for every request to the /converse pipeline, at most one
terminal event (error or complete) is emitted, and no event of any kind is
emitted after the terminal event. -/
theorem thm_pipeline_single_terminal (env : PipelineEnv) (audio_len : Nat)
    (language dialect : String) (lang_config : LangConfig) (dialect_config : DialectConfig)
    (hist : List Turn) :
    ((generate_events env audio_len language dialect lang_config dialect_config hist).filter
        is_terminal).length ≤ 1 ∧
      ((generate_events env audio_len language dialect lang_config dialect_config hist).dropLast.all
        (fun e => ! is_terminal e)) = true := by
  have hd : ((generate_events env audio_len language dialect lang_config dialect_config
      hist).dropLast.all (fun e => ! is_terminal e)) = true := by
    unfold generate_events
    repeat' split
    all_goals simp [is_terminal]
  exact ⟨count_terminal_le_one_of_dropLast _ hd, hd⟩

/-- Claim C2 counterexample: a request with a 0-byte audio payload does
not emit exactly one error event and nothing else; the stream is not of
the form [error msg] (the initial progress(receiving) event precedes the
error). -/
theorem thm_audio_too_short_cex :
    ¬ ∃ msg, converse_events sample_env (fun _ => some []) 0 "italian" "roman" "[]" =
        [Event.error msg] := by
  rintro ⟨msg, h⟩
  have hlen : (converse_events sample_env (fun _ => some []) 0 "italian" "roman" "[]").length = 2 :=
    rfl
  rw [h] at hlen
  simp at hlen

/-- Claim C2 (amended): for every request whose audio payload is smaller
than the minimum byte threshold (1000 bytes), the pipeline emits the
initial progress(receiving) event followed by exactly one error event, and
nothing else. -/
theorem thm_audio_too_short_events (env : PipelineEnv)
    (parseHistory : String → Option (List Turn)) (audio_len : Nat)
    (language dialect history : String) (h : audio_len < 1000) :
    converse_events env parseHistory audio_len language dialect history =
      [Event.progress "receiving"
         ("🎤 " ++ (converse_dialect_config language dialect).name ++ " is listening...") 10,
       Event.error "Audio too short. Please speak for at least 1 second."] := by
  unfold converse_events generate_events
  simp [h]

/-- Claim C2 witness: the amended statement evaluated on a concrete empty
payload. -/
theorem thm_audio_too_short_events_witness :
    converse_events sample_env (fun _ => some []) 0 "italian" "roman" "[]" =
      [Event.progress "receiving"
         ("🎤 " ++ (converse_dialect_config "italian" "roman").name ++ " is listening...") 10,
       Event.error "Audio too short. Please speak for at least 1 second."] :=
  thm_audio_too_short_events sample_env (fun _ => some []) 0 "italian" "roman" "[]" (by decide)

/-- Claim C9: persona resolution is total: an unknown language key resolves
to the default (italian) configuration, an empty or invalid dialect key
resolves to the first declared dialect of the resolved language, and the
final dialect lookup always succeeds. -/
theorem thm_persona_resolution_total (language dialect : String) :
    (List.lookup language SUPPORTED_LANGUAGES = none → resolve_lang language = italian_cfg) ∧
      ((dialect = "" ∨ ((resolve_lang language).dialects.map Prod.fst).contains dialect = false) →
        resolve_dialect_key language dialect =
          ((resolve_lang language).dialects.map Prod.fst).headD "") ∧
      (List.lookup (resolve_dialect_key language dialect)
        (resolve_lang language).dialects).isSome = true := by
  refine ⟨?_, ?_, ?_⟩
  · intro h
    unfold resolve_lang
    rw [h]
    rfl
  · intro h
    unfold resolve_dialect_key
    rw [if_pos h]
  · rcases resolve_lang_cases language with h | h | h | h | h <;>
      · simp only [resolve_dialect_key, h]
        split
        · decide
        · rename_i hc
          rw [not_or] at hc
          exact lookup_isSome_of_contains _ _ (by simpa using hc.2)

/-- Claim C9 witness: resolution of a language key and a dialect key that
are both absent from the catalog. -/
theorem thm_persona_resolution_total_witness :
    resolve_lang "klingon" = italian_cfg ∧
      resolve_dialect_key "klingon" "weird" =
        (((resolve_lang "klingon").dialects.map Prod.fst).headD "") ∧
      (List.lookup (resolve_dialect_key "klingon" "weird")
        (resolve_lang "klingon").dialects).isSome = true :=
  ⟨(thm_persona_resolution_total "klingon" "weird").1 (by decide),
   (thm_persona_resolution_total "klingon" "weird").2.1 (by decide),
   (thm_persona_resolution_total "klingon" "weird").2.2⟩
/-- The detector reports a mismatch exactly when the call yielded a usable
code whose base subtag differs from the target base subtag. -/
theorem detect_mismatch_found (det_lang transcript target_language : String)
    (h1 : ¬(transcript = "" ∨ (pyStrip transcript).length < 2))
    (h2 : ¬((pyLower det_lang) = "" ∨ (pyLower det_lang) = "und"))
    (h3 : base_code (pyLower det_lang) ≠
      base_code (pyLower (resolve_lang target_language).translate_code)) :
    detect_language_mismatch (.found det_lang) transcript target_language =
      (true,
       wrong_language_message (detected_display_name (pyLower det_lang))
         (resolve_lang target_language).name,
       (pyLower det_lang)) := by
  unfold detect_language_mismatch
  rw [if_neg h1]
  dsimp only
  rw [if_neg h2, if_pos h3]

/-- The fallback loop returns no response when every model attempt raises. -/
theorem first_model_response_none (attempts : String → String → AttemptOutcome) (prompt : String)
    (ms : List String) (h : ∀ m ∈ ms, ∃ e, attempts m prompt = .genFailure e) :
    first_model_response attempts prompt ms = none := by
  induction ms with
  | nil => rfl
  | cons m rest ih =>
    obtain ⟨e, he⟩ := h m (List.mem_cons_self m rest)
    unfold first_model_response
    rw [he]
    exact ih fun x hx => h x (List.mem_cons_of_mem _ hx)

/-- When no mismatch is reported and every model attempt raises, the
generator degrades to the canned quota fallback with no error. -/
theorem analyze_all_fail_fallback (env : GeminiEnv) (transcript language dialect : String)
    (history : List Turn)
    (hnomm : (detect_language_mismatch env.det transcript language).1 = false)
    (hfail : ∀ m ∈ models_to_try, ∀ prompt, ∃ e, env.attempts m prompt = .genFailure e) :
    analyze_with_gemini env transcript language dialect history =
      (some { reaction := "I heard you!",
              correction := "Let\x27s work on that together.",
              response := ((List.lookup dialect (resolve_lang language).dialects).getD
                (first_dialect (resolve_lang language))).greeting,
              cultural_note := "",
              encouragement := "Keep practicing!" }, none) := by
  unfold analyze_with_gemini
  rcases hdet : detect_language_mismatch env.det transcript language with ⟨b, m, dl⟩
  rw [hdet] at hnomm
  simp only at hnomm
  subst hnomm
  dsimp only
  rw [first_model_response_none env.attempts _ models_to_try
    (fun mm hm => hfail mm hm _)]
  unfold gemini_exception_result
  rw [if_pos (by decide)]

/-- Claim C4: when the detected base language code differs from the target
base code (for a usable detection), the feedback generator returns the
canned mismatch result whose correction field is the mismatch message
naming both languages, and no generative-text call is made: the result
does not depend on the generation or JSON-parsing oracles. -/
theorem thm_mismatch_shortcircuit (env : GeminiEnv) (det_lang transcript language dialect : String)
    (history : List Turn)
    (hdet : env.det = .found det_lang)
    (h1 : ¬(transcript = "" ∨ (pyStrip transcript).length < 2))
    (h2 : ¬((pyLower det_lang) = "" ∨ (pyLower det_lang) = "und"))
    (h3 : base_code (pyLower det_lang) ≠
      base_code (pyLower (resolve_lang language).translate_code)) :
    analyze_with_gemini env transcript language dialect history =
      (some { reaction := "Whoa, stop right there! 🛑",
              correction := wrong_language_message (detected_display_name (pyLower det_lang))
                (resolve_lang language).name,
              response := ((List.lookup dialect (resolve_lang language).dialects).getD
                (first_dialect (resolve_lang language))).greeting,
              cultural_note := "",
              encouragement := "Come on, give " ++ (resolve_lang language).name ++
                " a try! Even one word counts." }, none) ∧
      (∀ (attempts2 : String → String → AttemptOutcome)
         (parse2 : String → Option (List (String × String))),
        analyze_with_gemini { det := env.det, attempts := attempts2, parseJson := parse2 }
            transcript language dialect history =
          analyze_with_gemini env transcript language dialect history) := by
  have hd := detect_mismatch_found det_lang transcript language h1 h2 h3
  constructor
  · unfold analyze_with_gemini
    rw [hdet, hd]
  · intro attempts2 parse2
    unfold analyze_with_gemini
    dsimp only
    rw [hdet, hd]

/-- English-detection oracle whose generation attempts always raise. -/
def mism_gem : GeminiEnv :=
  { det := .found "en",
    attempts := fun _ _ => .genFailure "boom",
    parseJson := fun _ => none }

/-- Claim C4 witness: English speech in an Italian session short-circuits
to the mismatch message, for any pair of generation oracles. -/
theorem thm_mismatch_shortcircuit_witness :
    analyze_with_gemini mism_gem "Hello there" "italian" "roman" [] =
      (some { reaction := "Whoa, stop right there! 🛑",
              correction := wrong_language_message (detected_display_name "en") "Italian",
              response := "Ao! Ciao! So\x27 Marco. Vediamo che sai fare, dai!",
              cultural_note := "",
              encouragement := "Come on, give Italian a try! Even one word counts." }, none) ∧
      analyze_with_gemini
          { det := mism_gem.det,
            attempts := fun _ _ => .genSuccess (Except.ok "X"),
            parseJson := fun _ => some [] } "Hello there" "italian" "roman" [] =
        analyze_with_gemini mism_gem "Hello there" "italian" "roman" [] := by
  have h := thm_mismatch_shortcircuit mism_gem
    "en" "Hello there" "italian" "roman" [] rfl (by decide) (by decide) (by decide)
  exact ⟨h.1, h.2 (fun _ _ => .genSuccess (Except.ok "X")) (fun _ => some [])⟩

/-- Claim C5: total model-attempt failure with quota-pattern errors yields
the canned encouraging fallback with no error; a pipeline run in that
situation still ends in the complete event; and a hard error surfaces from
the generator only for a failure message that is not a recognized
quota/resource pattern. -/
theorem thm_quota_fallback :
    (∀ (env : GeminiEnv) (transcript language dialect : String) (history : List Turn),
      (detect_language_mismatch env.det transcript language).1 = false →
      (∀ m ∈ models_to_try, ∀ prompt, ∃ e,
        env.attempts m prompt = .genFailure e ∧ quota_pattern e = true) →
      analyze_with_gemini env transcript language dialect history =
        (some { reaction := "I heard you!",
                correction := "Let\x27s work on that together.",
                response := ((List.lookup dialect (resolve_lang language).dialects).getD
                  (first_dialect (resolve_lang language))).greeting,
                cultural_note := "",
                encouragement := "Keep practicing!" }, none)) ∧
    (∀ (penv : PipelineEnv) (audio_len : Nat) (language dialect : String)
       (lc : LangConfig) (dc : DialectConfig) (hist : List Turn) (t : String),
      ¬ audio_len < 1000 → penv.transcribeRes = (t, none) → t ≠ "" →
      (detect_language_mismatch penv.gem.det t language).1 = false →
      (∀ m ∈ models_to_try, ∀ prompt, ∃ e,
        penv.gem.attempts m prompt = .genFailure e ∧ quota_pattern e = true) →
      Option.map event_label
        (generate_events penv audio_len language dialect lc dc hist).getLast? =
        some "complete") ∧
    (∀ (env : GeminiEnv) (transcript language dialect : String) (history : List Turn)
       (e : String),
      (analyze_with_gemini env transcript language dialect history).2 = some e →
      ∃ msg, e = "AI analysis failed: " ++ msg ∧ quota_pattern msg = false) := by
  refine ⟨?_, ?_, ?_⟩
  · intro env transcript language dialect history hnomm hfail
    exact analyze_all_fail_fallback env transcript language dialect history hnomm
      (fun m hm prompt => ⟨(hfail m hm prompt).choose, (hfail m hm prompt).choose_spec.1⟩)
  · intro penv audio_len language dialect lc dc hist t ha ht hne hnomm hfail
    have hfb := analyze_all_fail_fallback penv.gem t language dialect hist hnomm
      (fun m hm prompt => ⟨(hfail m hm prompt).choose, (hfail m hm prompt).choose_spec.1⟩)
    unfold generate_events
    rw [if_neg ha, ht]
    dsimp only
    rw [if_neg hne, hfb]
    rfl
  · intro env transcript language dialect history e h
    unfold analyze_with_gemini at h
    rcases hdet : detect_language_mismatch env.det transcript language with ⟨b, m, dl⟩
    rw [hdet] at h
    cases b
    · dsimp only at h
      unfold gemini_exception_result at h
      rcases hr : first_model_response env.attempts
          (build_prompt (get_tutor_prompt language dialect) (history_to_text history) transcript
            (resolve_lang language).name) models_to_try with _ | tr
      · rw [hr] at h
        try dsimp only at h
        rw [if_pos (by decide)] at h
        simp at h
      · rw [hr] at h
        try dsimp only at h
        match tr with
        | Except.error e2 =>
          try dsimp only at h
          by_cases hq : quota_pattern e2 = true
          · rw [if_pos hq] at h
            simp at h
          · rw [if_neg hq] at h
            simp only [Option.some.injEq] at h
            exact ⟨e2, h.symm, by simpa using hq⟩
        | Except.ok raw =>
          dsimp only at h
          split at h <;> simp at h
    · simp at h

/-- Pipeline oracles where every generation attempt fails with a quota
error. -/
def quota_env : PipelineEnv :=
  { gem := { det := .found "it",
             attempts := fun _ _ => .genFailure "429 quota exceeded",
             parseJson := fun _ => none },
    transcribeRes := ("Ciao", none),
    translateCall := fun _ _ => .ok "Hi",
    synthCall := fun _ _ => .audio "QUJD" }

/-- Claim C5 witness: with quota failures on every model in an Italian
session, the generator degrades to the canned fallback and the pipeline
ends in complete; a concrete hard error decomposes as a non-quota
message. -/
theorem thm_quota_fallback_witness :
    analyze_with_gemini quota_env.gem "Ciao" "italian" "roman" [] =
      (some { reaction := "I heard you!",
              correction := "Let\x27s work on that together.",
              response := ((List.lookup "roman" (resolve_lang "italian").dialects).getD
                (first_dialect (resolve_lang "italian"))).greeting,
              cultural_note := "",
              encouragement := "Keep practicing!" }, none) ∧
    Option.map event_label
        (generate_events quota_env
          5000 "italian" "roman" italian_cfg (first_dialect italian_cfg) []).getLast? =
      some "complete" := by
  refine ⟨thm_quota_fallback.1 _ "Ciao" "italian" "roman" [] (by decide) ?_, ?_⟩
  · intro m _ prompt
    exact ⟨"429 quota exceeded", rfl, by decide⟩
  · refine thm_quota_fallback.2.1 _ 5000 "italian" "roman" italian_cfg (first_dialect italian_cfg)
      [] "Ciao" (by decide) rfl (by decide) (by decide) ?_
    intro m _ prompt
    exact ⟨"429 quota exceeded", rfl, by decide⟩
/-- Shape of the full event stream once transcription and feedback
generation have both succeeded: the two remaining stages only vary the
payloads of the translation/complete events, never the stream shape. -/
theorem generate_events_success (env : PipelineEnv) (audio_len : Nat)
    (language dialect : String) (lang_config : LangConfig) (dialect_config : DialectConfig)
    (hist : List Turn) (t : String) (g : FeedbackResult)
    (ha : ¬ audio_len < 1000)
    (ht : env.transcribeRes = (t, none))
    (hne : t ≠ "")
    (hA : analyze_with_gemini env.gem t language dialect hist = (some g, none)) :
    generate_events env audio_len language dialect lang_config dialect_config hist =
      [Event.progress "receiving" ("🎤 " ++ dialect_config.name ++ " is listening...") 10,
       Event.progress "transcribing" ("📝 Understanding your " ++ lang_config.name ++ "...") 25,
       Event.transcript t,
       Event.progress "analyzing" ("🤔 " ++ dialect_config.name ++ " is thinking...") 45,
       Event.analysis g.reaction g.correction g.encouragement g.cultural_note,
       Event.progress "translating" "🌐 Creating subtitles..." 65,
       Event.translation g.response (pipeline_translation env language g),
       Event.progress "synthesizing"
         ("🗣️ " ++ dialect_config.name ++ " is preparing to speak...") 85,
       Event.progress "complete" "✅ Ready!" 100,
       Event.complete
         { transcript := t, reaction := g.reaction, correction := g.correction,
           encouragement := g.encouragement, cultural_note := g.cultural_note,
           response_native := g.response,
           response_english := pipeline_translation env language g,
           audio_base64 := pipeline_audio env language dialect g,
           tutor_name := dialect_config.name, tutor_region := dialect_config.region,
           language := language, dialect := dialect }] := by
  unfold generate_events
  rw [if_neg ha, ht]
  dsimp only
  rw [if_neg hne, hA]

/-- Every event stream opens with the progress(receiving) event. -/
theorem generate_events_head (env : PipelineEnv) (audio_len : Nat)
    (language dialect : String) (lang_config : LangConfig) (dialect_config : DialectConfig)
    (hist : List Turn) :
    Option.map event_label
        (generate_events env audio_len language dialect lang_config dialect_config hist).head? =
      some "progress:receiving" := by
  unfold generate_events
  repeat' split
  all_goals rfl

/-- Claim C3: on a fully successful run (transcription returns non-empty
text, no language mismatch, generation, translation and synthesis all
succeed) the events come in exactly the order progress(receiving),
progress(transcribing), transcript, progress(analyzing), analysis,
progress(translating), translation, progress(synthesizing),
progress(complete), complete. -/
theorem thm_success_event_order (env : PipelineEnv) (audio_len : Nat)
    (language dialect : String) (lang_config : LangConfig) (dialect_config : DialectConfig)
    (hist : List Turn) (t : String) (g : FeedbackResult) (english_text b64 : String)
    (ha : ¬ audio_len < 1000)
    (ht : env.transcribeRes = (t, none))
    (hne : t ≠ "")
    (hnomm : (detect_language_mismatch env.gem.det t language).1 = false)
    (hA : analyze_with_gemini env.gem t language dialect hist = (some g, none))
    (hT : env.translateCall g.response (resolve_lang language).translate_code =
      TranslateOutcome.ok english_text)
    (hS : env.synthCall g.response
        ((List.lookup dialect (resolve_lang language).dialects).getD
          (first_dialect (resolve_lang language))).voice_id = SynthOutcome.audio b64) :
    (generate_events env audio_len language dialect lang_config dialect_config hist).map
        event_label =
      ["progress:receiving", "progress:transcribing", "transcript", "progress:analyzing",
       "analysis", "progress:translating", "translation", "progress:synthesizing",
       "progress:complete", "complete"] := by
  rw [generate_events_success env audio_len language dialect lang_config dialect_config hist t g
    ha ht hne hA]
  rfl

/-- Claim C3 witness: the concrete fully successful sample run. -/
theorem thm_success_event_order_witness :
    (generate_events sample_env 5000 "italian" "roman" italian_cfg
        (converse_dialect_config "italian" "roman") []).map event_label =
      ["progress:receiving", "progress:transcribing", "transcript", "progress:analyzing",
       "analysis", "progress:translating", "translation", "progress:synthesizing",
       "progress:complete", "complete"] := by
  refine thm_success_event_order sample_env 5000 "italian" "roman" italian_cfg
    (converse_dialect_config "italian" "roman") [] "Ciao"
    { reaction := "Bene!", correction := "Good!", response := "Ciao! Come stai?",
      cultural_note := "", encouragement := "Keep going!" }
    "Hello! How are you?" "QUJD" (by decide) rfl (by decide) (by decide) (by decide) rfl rfl

/-- Claim C8: whenever the translation call fails during the pipeline, the
translation and complete events carry the fixed placeholder string in the
english field, and no error event is emitted for the translation failure. -/
theorem thm_translation_placeholder (env : PipelineEnv) (audio_len : Nat)
    (language dialect : String) (lang_config : LangConfig) (dialect_config : DialectConfig)
    (hist : List Turn) (t e : String) (g : FeedbackResult)
    (ha : ¬ audio_len < 1000)
    (ht : env.transcribeRes = (t, none))
    (hne : t ≠ "")
    (hA : analyze_with_gemini env.gem t language dialect hist = (some g, none))
    (hT : env.translateCall g.response (resolve_lang language).translate_code =
      TranslateOutcome.err e) :
    Event.translation g.response "(Translation unavailable)" ∈
        generate_events env audio_len language dialect lang_config dialect_config hist ∧
      (∃ cd : CompleteData,
        Event.complete cd ∈
            generate_events env audio_len language dialect lang_config dialect_config hist ∧
          cd.response_english = "(Translation unavailable)") ∧
      ∀ msg, Event.error msg ∉
        generate_events env audio_len language dialect lang_config dialect_config hist := by
  have hpt : pipeline_translation env language g = "(Translation unavailable)" := by
    unfold pipeline_translation translate_text
    dsimp only
    rw [hT]
  have hev := generate_events_success env audio_len language dialect lang_config dialect_config
    hist t g ha ht hne hA
  rw [hev, hpt]
  refine ⟨by simp, ?_, ?_⟩
  · refine ⟨{ transcript := t, reaction := g.reaction, correction := g.correction,
              encouragement := g.encouragement, cultural_note := g.cultural_note,
              response_native := g.response, response_english := "(Translation unavailable)",
              audio_base64 := pipeline_audio env language dialect g,
              tutor_name := dialect_config.name, tutor_region := dialect_config.region,
              language := language, dialect := dialect }, by simp, rfl⟩
  · intro msg hmem
    simp at hmem

/-- Pipeline oracles whose translation call always fails. -/
def transl_fail_env : PipelineEnv :=
  { gem := sample_gem,
    transcribeRes := ("Ciao", none),
    translateCall := fun _ _ => .err "service down",
    synthCall := fun _ _ => .audio "QUJD" }

/-- Claim C8 witness: a concrete run with a failing translation call keeps
the placeholder in the translation event and emits no error event. -/
theorem thm_translation_placeholder_witness :
    Event.translation "Ciao! Come stai?" "(Translation unavailable)" ∈
        generate_events transl_fail_env 5000 "italian" "roman" italian_cfg
          (converse_dialect_config "italian" "roman") [] ∧
      Event.error "Translation failed: service down" ∉
        generate_events transl_fail_env 5000 "italian" "roman" italian_cfg
          (converse_dialect_config "italian" "roman") [] := by
  have h := thm_translation_placeholder transl_fail_env 5000 "italian" "roman" italian_cfg
    (converse_dialect_config "italian" "roman") [] "Ciao" "service down"
    { reaction := "Bene!", correction := "Good!", response := "Ciao! Come stai?",
      cultural_note := "", encouragement := "Keep going!" }
    (by decide) rfl (by decide) (by decide) rfl
  exact ⟨h.1, h.2.2 "Translation failed: service down"⟩

/-- Claim C10: a /converse request whose history query parameter does not
parse is not rejected: the pipeline runs exactly as it would with an empty
history list, starting with the usual progress(receiving) event. -/
theorem thm_invalid_history_empty (env : PipelineEnv)
    (parseHistory : String → Option (List Turn)) (audio_len : Nat)
    (language dialect history well_formed : String)
    (hbad : parseHistory history = none)
    (hgood : parseHistory well_formed = some []) :
    converse_events env parseHistory audio_len language dialect history =
        converse_events env parseHistory audio_len language dialect well_formed ∧
      Option.map event_label
          (converse_events env parseHistory audio_len language dialect history).head? =
        some "progress:receiving" := by
  constructor
  · unfold converse_events
    rw [hbad, hgood]
    rfl
  · unfold converse_events
    rw [hbad]
    exact generate_events_head env audio_len language (resolve_dialect_key language dialect)
      (resolve_lang language) (converse_dialect_config language dialect) []

/-- Claim C10 witness: a concrete malformed history string behaves exactly
like the well-formed empty history. -/
theorem thm_invalid_history_empty_witness :
    converse_events sample_env
        (fun s => if s = "[]" then some [] else none) 5000 "italian" "roman" "not json" =
        converse_events sample_env
          (fun s => if s = "[]" then some [] else none) 5000 "italian" "roman" "[]" ∧
      Option.map event_label
          (converse_events sample_env
            (fun s => if s = "[]" then some [] else none) 5000 "italian" "roman"
            "not json").head? =
        some "progress:receiving" :=
  thm_invalid_history_empty sample_env (fun s => if s = "[]" then some [] else none)
    5000 "italian" "roman" "not json" "[]" (by decide) (by decide)
/-- Folding min over copies of the same value is the identity. -/
theorem foldl_min_replicate (n : Nat) (a : ℚ) : (List.replicate n a).foldl min a = a := by
  induction n with
  | zero => rfl
  | succ k ih => simpa [List.replicate_succ, min_self] using ih

/-- The minimum of twenty zero timestamps. -/
theorem min_replicate_zero : (List.replicate 20 (0:ℚ)).min? = some 0 := by
  show some ((List.replicate 19 (0:ℚ)).foldl min 0) = some 0
  rw [foldl_min_replicate]

/-- The window filter keeps every timestamp whose age is within the window. -/
theorem filter_window_keeps (requests : List ℚ) (now window : ℚ)
    (h : ∀ x ∈ requests, now - x < window) :
    requests.filter (fun t => decide (now - t < window)) = requests := by
  rw [List.filter_eq_self]
  intro a ha
  simpa using h a ha

/-- A run of checks that all fit inside the capacity and the window admits
everything and stores every timestamp. -/
theorem runChecks_admits (max_requests : Nat) (window : ℚ) :
    ∀ (ts reqs : List ℚ),
      reqs.length + ts.length ≤ max_requests →
      (∀ x ∈ reqs ++ ts, ∀ y ∈ reqs ++ ts, y - x < window) →
      runChecks max_requests window reqs ts =
        (ts.map (fun _ => ((true : Bool), (none : Option ℤ))), reqs ++ ts) := by
  intro ts
  induction ts with
  | nil =>
    intro reqs _ _
    simp [runChecks]
  | cons t rest ih =>
    intro reqs hlen hwin
    have hfilter : reqs.filter (fun x => decide (t - x < window)) = reqs := by
      refine filter_window_keeps reqs t window ?_
      intro x hx
      exact hwin x (by simp [hx]) t (by simp)
    have hlt : ¬ max_requests ≤ reqs.length := by
      simp only [List.length_cons] at hlen
      omega
    have hih := ih (reqs ++ [t])
      (by simp only [List.length_append, List.length_cons, List.length_nil] at hlen ⊢; omega)
      (by
        intro x hx y hy
        apply hwin
        · simp only [List.mem_append, List.mem_cons] at hx ⊢
          tauto
        · simp only [List.mem_append, List.mem_cons] at hy ⊢
          tauto)
    unfold runChecks is_allowed
    dsimp only
    rw [hfilter, if_neg hlt]
    dsimp only
    rw [hih]
    simp

/-- A full window of twenty stored timestamps denies the next check, with
retry_after equal to one plus the truncation of the remaining time of the
oldest stored timestamp, which is always positive. -/
theorem is_allowed_denies (ts : List ℚ) (t21 : ℚ)
    (hlen : ts.length = 20)
    (hwin : ∀ x ∈ ts, t21 - x < 60) :
    ∃ oldest ra, ts.min? = some oldest ∧
      is_allowed 20 60 ts t21 = (false, some ra, ts) ∧
      ra = py_int (60 - (t21 - oldest)) + 1 ∧ 0 < ra := by
  have hfilter : ts.filter (fun x => decide (t21 - x < 60)) = ts :=
    filter_window_keeps ts t21 60 hwin
  match ts, hlen with
  | x :: rest, hlen =>
    have hmin : (x :: rest).min? = some (rest.foldl min x) := rfl
    have hmem : rest.foldl min x ∈ x :: rest :=
      List.min?_mem (fun a b => min_choice a b) hmin
    have hlt : t21 - rest.foldl min x < 60 := hwin _ hmem
    have hpos : (0:ℚ) ≤ 60 - (t21 - rest.foldl min x) := by linarith
    have hfloor : 0 ≤ py_int (60 - (t21 - rest.foldl min x)) := by
      unfold py_int
      rw [if_neg (by linarith)]
      exact Int.floor_nonneg.mpr hpos
    refine ⟨rest.foldl min x, py_int (60 - (t21 - rest.foldl min x)) + 1, hmin, ?_, rfl,
      by omega⟩
    unfold is_allowed
    dsimp only
    rw [hfilter, hmin]
    rw [if_pos (by rw [hlen])]
    rfl

/-- Claim C7 (amended): for a client starting from an empty window, twenty
checks inside one 60-second window are all admitted; the twenty-first is
denied with a positive retry_after computed as one plus the downward
truncation of the time left until the oldest stored timestamp leaves the
window (the source adds one to the truncation, so at exact-integer
remainders this exceeds the rounded-up value by one). -/
theorem thm_sliding_window_admission :
    (∀ ts : List ℚ, ts.length ≤ 20 →
      (∀ x ∈ ts, ∀ y ∈ ts, y - x < 60) →
      runChecks 20 60 [] ts =
        (ts.map (fun _ => ((true : Bool), (none : Option ℤ))), ts)) ∧
    (∀ (ts : List ℚ) (t21 : ℚ), ts.length = 20 →
      (∀ x ∈ ts ++ [t21], ∀ y ∈ ts ++ [t21], y - x < 60) →
      ∃ oldest ra, ts.min? = some oldest ∧
        is_allowed 20 60 ts t21 = (false, some ra, ts) ∧
        ra = py_int (60 - (t21 - oldest)) + 1 ∧ 0 < ra) := by
  constructor
  · intro ts h1 h2
    have := runChecks_admits 20 60 ts [] (by simpa using h1) (by simpa using h2)
    simpa using this
  · intro ts t21 h1 h2
    refine is_allowed_denies ts t21 h1 ?_
    intro x hx
    exact h2 x (by simp [hx]) t21 (by simp)

/-- Twenty-one simultaneous checks: all elements are zero, so every age is
zero and inside the window. -/
theorem zeros_in_window :
    ∀ x ∈ List.replicate 20 (0:ℚ) ++ [0], ∀ y ∈ List.replicate 20 (0:ℚ) ++ [0],
      y - x < 60 := by
  intro x hx y hy
  simp only [List.mem_append, List.mem_replicate, List.mem_singleton] at hx hy
  have hx0 : x = 0 := by rcases hx with ⟨_, h⟩ | h <;> exact h
  have hy0 : y = 0 := by rcases hy with ⟨_, h⟩ | h <;> exact h
  rw [hx0, hy0]
  norm_num

/-- The denial value at a full window of zero timestamps evaluates to 61. -/
theorem is_allowed_zeros :
    is_allowed 20 60 (List.replicate 20 (0:ℚ)) 0 =
      (false, some 61, List.replicate 20 (0:ℚ)) := by
  obtain ⟨oldest, ra, h1, h2, h3, _⟩ :=
    is_allowed_denies (List.replicate 20 (0:ℚ)) 0 (by simp)
      (fun x hx => by rw [List.eq_of_mem_replicate hx]; norm_num)
  rw [min_replicate_zero] at h1
  obtain rfl : oldest = 0 := by simpa using h1.symm
  have hra : ra = 61 := by
    rw [h3]
    unfold py_int
    rw [if_neg (by norm_num)]
    rw [show (60:ℚ) - (0 - 0) = ((61:ℤ) - 1 : ℤ) by norm_num]
    rw [Int.floor_intCast]
    norm_num
  rw [hra] at h2
  exact h2

/-- Claim C7 counterexample: with twenty stored checks at time 0, a new
check at time 0 is denied with retry_after 61, while the time until the
oldest stored timestamp leaves the window, rounded up, is 60; the source
value is floor plus one, not the ceiling. -/
theorem thm_retry_after_rounding_cex :
    is_allowed 20 60 (List.replicate 20 (0:ℚ)) 0 =
        (false, some 61, List.replicate 20 (0:ℚ)) ∧
      Int.ceil ((60:ℚ) - (0 - 0)) = 60 ∧ (61:ℤ) ≠ 60 := by
  refine ⟨is_allowed_zeros, ?_, by decide⟩
  rw [show (60:ℚ) - (0 - 0) = ((60:ℤ) : ℚ) by norm_num]
  rw [Int.ceil_intCast]

/-- Claim C7 witness: the amended statement at a concrete trace of
twenty-one checks all at time zero. -/
theorem thm_sliding_window_admission_witness :
    runChecks 20 60 [] (List.replicate 20 (0:ℚ)) =
        ((List.replicate 20 (0:ℚ)).map (fun _ => ((true : Bool), (none : Option ℤ))),
         List.replicate 20 (0:ℚ)) ∧
      is_allowed 20 60 (List.replicate 20 (0:ℚ)) 0 =
        (false, some (py_int (60 - ((0:ℚ) - 0)) + 1), List.replicate 20 (0:ℚ)) ∧
      (0:ℤ) < py_int (60 - ((0:ℚ) - 0)) + 1 := by
  have hzw : ∀ x ∈ List.replicate 20 (0:ℚ), ∀ y ∈ List.replicate 20 (0:ℚ), y - x < 60 := by
    intro x hx y hy
    rw [List.eq_of_mem_replicate hx, List.eq_of_mem_replicate hy]
    norm_num
  refine ⟨thm_sliding_window_admission.1 (List.replicate 20 0) (by simp) hzw, ?_⟩
  obtain ⟨oldest, ra, h1, h2, h3, h4⟩ :=
    thm_sliding_window_admission.2 (List.replicate 20 (0:ℚ)) 0 (by simp) zeros_in_window
  rw [min_replicate_zero] at h1
  obtain rfl : oldest = 0 := by simpa using h1.symm
  rw [h3] at h2 h4
  exact ⟨h2, h4⟩

/-- Claim C6 counterexample: a request to the specific-dialect route
/dialects/italian is subject to the rate limit (a full window rejects it
with 429/retry_after 61), while the bare exempt paths are forwarded. -/
theorem thm_dialects_path_rate_limited_cex :
    rate_limit_middleware (List.replicate 20 (0:ℚ)) 0 "/dialects/italian" =
        MiddlewareResult.rejected 61 ∧
      rate_limit_middleware (List.replicate 20 (0:ℚ)) 0 "/dialects" =
        MiddlewareResult.forwarded := by
  constructor
  · unfold rate_limit_middleware
    rw [if_neg (by decide)]
    rw [show RATE_LIMIT_REQUESTS = 20 from rfl, show RATE_LIMIT_WINDOW = (60:ℚ) from rfl]
    rw [is_allowed_zeros]
    rfl
  · unfold rate_limit_middleware
    rw [if_pos (by decide)]

/-- Claim C6 (amended): rate limiting is applied to every route whose
exact path is not one of /health, /dialects, /languages; the limiter
verdict decides forwarding for all other paths, so requests to
/dialects/{language} do not bypass the rate-limit check. -/
theorem thm_rate_limit_exempt_paths (requests : List ℚ) (now : ℚ) (path : String) :
    ((path = "/health" ∨ path = "/dialects" ∨ path = "/languages") →
      rate_limit_middleware requests now path = MiddlewareResult.forwarded) ∧
    (¬(path = "/health" ∨ path = "/dialects" ∨ path = "/languages") →
      ((is_allowed RATE_LIMIT_REQUESTS RATE_LIMIT_WINDOW requests now).1 = true →
        rate_limit_middleware requests now path = MiddlewareResult.forwarded) ∧
      ((is_allowed RATE_LIMIT_REQUESTS RATE_LIMIT_WINDOW requests now).1 = false →
        rate_limit_middleware requests now path =
          MiddlewareResult.rejected
            (((is_allowed RATE_LIMIT_REQUESTS RATE_LIMIT_WINDOW requests now).2.1).getD 0))) := by
  constructor
  · intro h
    unfold rate_limit_middleware
    rw [if_pos (by simpa using h)]
  · intro h
    have hn : ¬ path ∈ ["/health", "/dialects", "/languages"] := by simpa using h
    constructor
    · intro hallow
      unfold rate_limit_middleware
      rw [if_neg hn]
      rcases hia : is_allowed RATE_LIMIT_REQUESTS RATE_LIMIT_WINDOW requests now with ⟨b, r, l⟩
      rw [hia] at hallow
      simp only at hallow
      subst hallow
      rfl
    · intro hdeny
      unfold rate_limit_middleware
      rw [if_neg hn]
      rcases hia : is_allowed RATE_LIMIT_REQUESTS RATE_LIMIT_WINDOW requests now with ⟨b, r, l⟩
      rw [hia] at hdeny
      simp only at hdeny
      subst hdeny
      rfl

/-- Claim C6 witness: with an empty window every path is forwarded, and
with a full window the non-exempt dialect route is rejected while /health
still passes. -/
theorem thm_rate_limit_exempt_paths_witness :
    rate_limit_middleware (List.replicate 20 (0:ℚ)) 0 "/health" =
        MiddlewareResult.forwarded ∧
      rate_limit_middleware (List.replicate 20 (0:ℚ)) 0 "/dialects/italian" =
        MiddlewareResult.rejected
          (((is_allowed RATE_LIMIT_REQUESTS RATE_LIMIT_WINDOW
            (List.replicate 20 (0:ℚ)) 0).2.1).getD 0) := by
  refine ⟨(thm_rate_limit_exempt_paths (List.replicate 20 (0:ℚ)) 0 "/health").1 (by decide), ?_⟩
  refine ((thm_rate_limit_exempt_paths (List.replicate 20 (0:ℚ)) 0 "/dialects/italian").2
    (by decide)).2 ?_
  rw [show RATE_LIMIT_REQUESTS = 20 from rfl, show RATE_LIMIT_WINDOW = (60:ℚ) from rfl,
    is_allowed_zeros]

end LanguageMirror
